import Mathlib

/-!
Verification development for the `django-validator` request-parameter
validation library (modules `converters.py`, `validators.py`, `decorators.py`,
`exceptions.py`).  The Python 2 code is shallowly embedded: Python runtime
values become the inductive type `Value`, raised exceptions become the
`Except PyExc` monad, and the registries become association lists populated in
the source's registration order.
-/

set_option maxRecDepth 4000

namespace DjangoValidator

/-- Model of the Python runtime values that flow through the library:
`None`, booleans, integers, floats, strings, Django `File` objects
(carrying a `name` and a `size`), and lists (produced by `many=True`
parameters).  Python floats are modelled exactly as decimal values
`mant * 10 ^ exp`; IEEE rounding is outside the modelled scope. -/
inductive Value where
  | none : Value
  | bool (b : Bool) : Value
  | int (n : Int) : Value
  | float (mant : Int) (exp : Int) : Value
  | str (s : String) : Value
  | file (name : String) (size : Int) : Value
  | list (elems : List Value) : Value

/-- Python `value is None` (identity test against the `None` singleton). -/
def Value.isNone : Value → Bool
  | .none => true
  | _ => false

/-- Model of the Python exceptions the library can raise: the library's own
`ValidationError` (detail message, code, HTTP status code, from
`exceptions.py`) and the builtin exception classes reachable in the code. -/
structure VError where
  message : String
  code : Option String
  statusCode : Nat
deriving DecidableEq, Repr

inductive PyExc where
  | validationError (e : VError) : PyExc
  | plainExc (msg : String) : PyExc
  | valueError (msg : String) : PyExc
  | typeError (msg : String) : PyExc
  | attributeError (msg : String) : PyExc
deriving DecidableEq, Repr

instance {ε α : Type} [DecidableEq ε] [DecidableEq α] : DecidableEq (Except ε α) := fun x y =>
  match x, y with
  | .error a, .error b =>
    match decEq a b with
    | .isTrue h => .isTrue (h ▸ rfl)
    | .isFalse h => .isFalse fun hh => h (Except.error.inj hh)
  | .error _, .ok _ => .isFalse fun hh => Except.noConfusion hh
  | .ok _, .error _ => .isFalse fun hh => Except.noConfusion hh
  | .ok a, .ok b =>
    match decEq a b with
    | .isTrue h => .isTrue (h ▸ rfl)
    | .isFalse h => .isFalse fun hh => h (Except.ok.inj hh)

/-- Python 2 `e.message`: the first constructor argument of the exception. -/
def excMessage : PyExc → String
  | .validationError e => e.message
  | .plainExc m => m
  | .valueError m => m
  | .typeError m => m
  | .attributeError m => m

/-- `True` iff the exception is the library's `ValidationError`. -/
def PyExc.isVE : PyExc → Bool
  | .validationError _ => true
  | _ => false

/-- Modelled from the spec: the `status` module is not under `src/`; the spec
fixes the default status code of a validation failure at HTTP 400. -/
def HTTP_400_BAD_REQUEST : Nat := 400

/-! ### Python string helpers (builtins used by the source) -/

/-- The whitespace characters stripped by Python 2 `str.strip()`. -/
def pySpace (c : Char) : Bool :=
  c = ' ' || c = '\t' || c = '\n' || c = '\x0d' || c = '\x0b' || c = '\x0c'

def stripChars (l : List Char) : List Char :=
  ((l.dropWhile pySpace).reverse.dropWhile pySpace).reverse

/-- Python `str.strip()` (no arguments). -/
def pyStrip (s : String) : String := String.mk (stripChars s.data)

/-- Splitting on a single character with no limit, as `str.split(sep)`. -/
def splitAux (sep : Char) : List Char → List Char → List (List Char)
  | [], acc => [acc.reverse]
  | c :: rest, acc =>
    if c = sep then acc.reverse :: splitAux sep rest []
    else splitAux sep rest (c :: acc)

def pySplit (sep : Char) (s : String) : List String :=
  (splitAux sep s.data []).map String.mk

/-- Splitting with a maximum number of splits, as `str.split(sep, maxsplit)`. -/
def splitLimitAux (sep : Char) : List Char → List Char → Nat → List (List Char)
  | [], acc, _ => [acc.reverse]
  | c :: rest, acc, 0 => [acc.reverse ++ c :: rest]
  | c :: rest, acc, n + 1 =>
    if c = sep then acc.reverse :: splitLimitAux sep rest [] n
    else splitLimitAux sep rest (c :: acc) (n + 1)

def pySplitLimit (sep : Char) (limit : Nat) (s : String) : List String :=
  (splitLimitAux sep s.data [] limit).map String.mk

/-- Python `c in s` for a single-character needle. -/
def containsChar (c : Char) (s : String) : Bool := s.data.any (· = c)

/-- Python `str.lower()` (ASCII behaviour). -/
def pyLower (s : String) : String := String.mk (s.data.map Char.toLower)

/-! ### Decimal rendering and parsing of integers (`str(n)` and `int(s)`) -/

def digitChar : Nat → Char
  | 0 => '0' | 1 => '1' | 2 => '2' | 3 => '3' | 4 => '4'
  | 5 => '5' | 6 => '6' | 7 => '7' | 8 => '8' | _ => '9'

def digitVal (c : Char) : Nat := c.toNat - '0'.toNat

/-- Fuel-driven most-significant-first decimal digits of a natural number;
the fuel is an upper bound on the number, so it never runs out. -/
def natDecAux : Nat → Nat → List Char → List Char
  | 0, _, acc => acc
  | fuel + 1, n, acc =>
    let d := digitChar (n % 10)
    if n / 10 = 0 then d :: acc else natDecAux fuel (n / 10) (d :: acc)

/-- Decimal digit list of `n`, most significant first. -/
def natDecChars (n : Nat) : List Char := natDecAux (n + 1) n []

/-- Decimal character representation of a Python integer, as `str(n)`. -/
def intDecChars : Int → List Char
  | .ofNat m => natDecChars m
  | .negSucc m => '-' :: natDecChars (m + 1)

def pyIntStr (n : Int) : String := String.mk (intDecChars n)

/-- `foldl`-style decimal accumulation used to model `int()` parsing. -/
def parseNatDigits (l : List Char) : Nat :=
  l.foldl (fun acc c => acc * 10 + digitVal c) 0

/-- Model of Python `int(s)` on already-stripped strings: an optional sign
followed by one or more decimal digits (the only shapes the library feeds
to `int()`); anything else raises `ValueError`, modelled as `none`. -/
def pyInt (s : String) : Option Int :=
  match s.data with
  | [] => Option.none
  | c :: rest =>
    if c = '-' then
      if !rest.isEmpty && rest.all Char.isDigit
      then some (-(parseNatDigits rest : Int)) else Option.none
    else if c = '+' then
      if !rest.isEmpty && rest.all Char.isDigit
      then some ((parseNatDigits rest : Int)) else Option.none
    else
      if (c :: rest).all Char.isDigit
      then some ((parseNatDigits (c :: rest) : Int)) else Option.none

/-! ### Rendering of values (`str(value)`), needed for message formatting -/

def pyFloatChars (mant exp : Int) : List Char :=
  -- str() of a Python float; the exact float formatting is outside the
  -- modelled scope, a mantissa/exponent rendering is used instead.
  intDecChars mant ++ 'e' :: intDecChars exp

mutual

/-- Python `repr(value)` for the modelled values (used inside list display). -/
def pyRepr : Value → String
  | .none => "None"
  | .bool b => if b then "True" else "False"
  | .int n => pyIntStr n
  | .float m e => String.mk (pyFloatChars m e)
  | .str s => "'" ++ s ++ "'"
  | .file name _ => name
  | .list l => "[" ++ pyReprList l ++ "]"

def pyReprList : List Value → String
  | [] => ""
  | [v] => pyRepr v
  | v :: rest => pyRepr v ++ ", " ++ pyReprList rest

end

/-- Python `str(value)`. `str` of a Django `File` is its name. -/
def pyStr : Value → String
  | .none => "None"
  | .bool b => if b then "True" else "False"
  | .int n => pyIntStr n
  | .float m e => String.mk (pyFloatChars m e)
  | .str s => s
  | .file name _ => name
  | .list l => "[" ++ pyReprList l ++ "]"

/-- Python truthiness of the modelled values.  Django's `File.__nonzero__`
is `bool(self.name)`, so a file is truthy iff its name is non-empty. -/
def pyTruthy : Value → Bool
  | .none => false
  | .bool b => b
  | .int n => n != 0
  | .float m _ => m != 0
  | .str s => !s.isEmpty
  | .file name _ => !name.isEmpty
  | .list l => !l.isEmpty

/-- CPython hashability of the modelled values: everything except lists
(`None`, booleans, numbers, strings and `File` objects all hash). -/
def pyHashable : Value → Bool
  | .list _ => false
  | _ => true

/-- The Python type name, used in `AttributeError` messages. -/
def pyTypeName : Value → String
  | .none => "NoneType"
  | .bool _ => "bool"
  | .int _ => "int"
  | .float _ _ => "float"
  | .str _ => "str"
  | .file _ _ => "File"
  | .list _ => "list"

/-! ### Python `==` (used by the `BooleanConverter` membership test) -/

/-- Numeric view of a value: `some (mant, exp)` standing for `mant * 10^exp`.
Booleans equal the integers 0/1 in Python, so they are numbers here too. -/
def asNum : Value → Option (Int × Int)
  | .bool b => some (if b then 1 else 0, 0)
  | .int n => some (n, 0)
  | .float m e => some (m, e)
  | _ => Option.none

def numEq (a b : Int × Int) : Bool :=
  if a.2 ≤ b.2 then a.1 == b.1 * 10 ^ (b.2 - a.2).toNat
  else a.1 * 10 ^ (a.2 - b.2).toNat == b.1

mutual

/-- Python `==` on the modelled values: numbers compare numerically
(`0 == False`, `0.0 == 0`), strings compare as strings, `None` only equals
`None`, lists compare element-wise with Python `==`; `File` defines no
custom equality, so distinct file objects are modelled structurally. -/
def pyEq (a b : Value) : Bool :=
  match asNum a, asNum b with
  | some x, some y => numEq x y
  | _, _ =>
    match a, b with
    | .none, .none => true
    | .str s, .str t => s == t
    | .file n1 s1, .file n2 s2 => n1 == n2 && s1 == s2
    | .list l1, .list l2 => pyEqList l1 l2
    | _, _ => false

def pyEqList : List Value → List Value → Bool
  | [], [] => true
  | a :: as1, b :: bs => pyEq a b && pyEqList as1 bs
  | _, _ => false

end

/-! ### Parameter maps — Python dicts keyed by strings -/

/-- A Python dict keyed by strings, as an insertion-ordered association list
with unique keys (maintained by `kwSet`). -/
abbrev KW := List (String × Value)

/-- Python `d.get(k, default)`. A stored `None` is returned as such, which is
distinct from the key being absent. -/
def kwGetD (kw : KW) (k : String) (default : Value) : Value :=
  match kw with
  | [] => default
  | (k', v) :: rest => if k' = k then v else kwGetD rest k default

/-- Python `d.get(k)` (default `None`). -/
def kwGet (kw : KW) (k : String) : Value := kwGetD kw k Value.none

/-- Python `k in d`. -/
def kwHas (kw : KW) (k : String) : Bool :=
  match kw with
  | [] => false
  | (k', _) :: rest => k' = k || kwHas rest k

/-- Python `d[k] = v` (update in place, or append a new key). -/
def kwSet (kw : KW) (k : String) (v : Value) : KW :=
  match kw with
  | [] => [(k, v)]
  | (k', v') :: rest => if k' = k then (k, v) :: rest else (k', v') :: kwSet rest k v

/-! ### A model of `re` for the patterns the library compiles

`IntegerValidator` and `NumericValidator` carry two fixed patterns, which are
modelled exactly by the decision procedures `isIntegerLit` / `isNumericLit`
below.  User-supplied `RegexValidator` patterns are handled by a small
backtracking engine over the subset of the `re` syntax used with this
library (literals, `.`, `\d` `\w` `\s`, escaped literals, `* + ?`,
grouping, alternation, `^` `$` `\Z`); unsupported constructs are rejected
at compile time. -/

inductive Re where
  | emptyRe : Re
  | charRe (c : Char) : Re
  | anyChar : Re
  | classD : Re
  | classW : Re
  | classS : Re
  | seqRe (a b : Re) : Re
  | altRe (a b : Re) : Re
  | starRe (a : Re) : Re
  | plusRe (a : Re) : Re
  | optRe (a : Re) : Re
  | startAnchor : Re
  | endAnchor : Re
deriving DecidableEq, Repr

mutual

def parseAltRe : Nat → List Char → Option (Re × List Char)
  | 0, _ => Option.none
  | fuel + 1, l =>
    match parseSeqRe fuel l with
    | Option.none => Option.none
    | some (a, r) =>
      match r with
      | '|' :: r2 =>
        match parseAltRe fuel r2 with
        | some (b, r3) => some (.altRe a b, r3)
        | Option.none => Option.none
      | _ => some (a, r)

def parseSeqRe : Nat → List Char → Option (Re × List Char)
  | 0, _ => Option.none
  | fuel + 1, l =>
    match l with
    | [] => some (.emptyRe, [])
    | ')' :: _ => some (.emptyRe, l)
    | '|' :: _ => some (.emptyRe, l)
    | _ =>
      match parseQuantRe fuel l with
      | Option.none => Option.none
      | some (a, r) =>
        match parseSeqRe fuel r with
        | some (b, r2) => some (.seqRe a b, r2)
        | Option.none => Option.none

def parseQuantRe : Nat → List Char → Option (Re × List Char)
  | 0, _ => Option.none
  | fuel + 1, l =>
    match parseAtomRe fuel l with
    | Option.none => Option.none
    | some (a, r) =>
      match r with
      | '*' :: r2 => some (.starRe a, r2)
      | '+' :: r2 => some (.plusRe a, r2)
      | '?' :: r2 => some (.optRe a, r2)
      | _ => some (a, r)

def parseAtomRe : Nat → List Char → Option (Re × List Char)
  | 0, _ => Option.none
  | fuel + 1, l =>
    match l with
    | [] => Option.none
    | '(' :: r =>
      match parseAltRe fuel r with
      | some (a, ')' :: r3) => some (a, r3)
      | _ => Option.none
    | '\\' :: c :: r =>
      if c = 'd' then some (.classD, r)
      else if c = 'w' then some (.classW, r)
      else if c = 's' then some (.classS, r)
      else if c = 'Z' then some (.endAnchor, r)
      else if c.isAlpha || c.isDigit then Option.none
      else some (.charRe c, r)
    | '.' :: r => some (.anyChar, r)
    | '^' :: r => some (.startAnchor, r)
    | '$' :: r => some (.endAnchor, r)
    | c :: r =>
      if c = '\\' || c = '[' || c = '*' || c = '+' || c = '?' || c = ')' || c = '|' then Option.none
      else some (.charRe c, r)

end

/-- Model of `re.compile`: `none` when the pattern is invalid or uses an
unsupported construct. -/
def reCompile (pattern : String) : Option Re :=
  match parseAltRe (2 * pattern.length + 8) pattern.data with
  | some (a, []) => some a
  | _ => Option.none

def concatMap (f : α → List β) (l : List α) : List β := (l.map f).flatten

/-- Backtracking matcher: all `(position, remainder)` pairs reachable by
matching `re` at `pos`.  `^` matches only at position 0; `$`/`\Z` at the
very end. The fuel bounds the search. -/
def matchRe : Nat → Re → Nat → List Char → List (Nat × List Char)
  | 0, _, _, _ => []
  | fuel + 1, re, pos, l =>
    match re with
    | .emptyRe => [(pos, l)]
    | .charRe c =>
      match l with
      | x :: r => if x = c then [(pos + 1, r)] else []
      | [] => []
    | .anyChar =>
      match l with
      | x :: r => if x = '\n' then [] else [(pos + 1, r)]
      | [] => []
    | .classD =>
      match l with
      | x :: r => if x.isDigit then [(pos + 1, r)] else []
      | [] => []
    | .classW =>
      match l with
      | x :: r => if x.isAlphanum || x = '_' then [(pos + 1, r)] else []
      | [] => []
    | .classS =>
      match l with
      | x :: r => if pySpace x then [(pos + 1, r)] else []
      | [] => []
    | .seqRe a b => concatMap (fun pr => matchRe fuel b pr.1 pr.2) (matchRe fuel a pos l)
    | .altRe a b => matchRe fuel a pos l ++ matchRe fuel b pos l
    | .starRe a =>
      (pos, l) ::
        concatMap (fun pr => if pos < pr.1 then matchRe fuel (.starRe a) pr.1 pr.2 else [])
          (matchRe fuel a pos l)
    | .plusRe a => concatMap (fun pr => matchRe fuel (.starRe a) pr.1 pr.2) (matchRe fuel a pos l)
    | .optRe a => (pos, l) :: matchRe fuel a pos l
    | .startAnchor => if pos = 0 then [(pos, l)] else []
    | .endAnchor => if l.isEmpty then [(pos, l)] else []

/-- Truthiness of `compiled.match(s)`: some match starting at position 0. -/
def reMatch (pattern : String) (s : String) : Bool :=
  match reCompile pattern with
  | some re => !(matchRe (4 * (pattern.length + 2) * (s.length + 2)) re 0 s.data).isEmpty
  | Option.none => false

/-- Decision procedure for `IntegerValidator`'s pattern `^-?\d+\Z`:
an optional minus sign followed by one or more decimal digits. -/
def isIntegerLit (l : List Char) : Bool :=
  match l with
  | [] => false
  | c :: rest =>
    if c = '-' then !rest.isEmpty && rest.all Char.isDigit
    else (c :: rest).all Char.isDigit

/-- Decision procedure for `NumericValidator`'s pattern
`^-?\d*(\.\d+)?(e-?\d+)?\Z` (the greedy match is deterministic here). -/
def isNumericLit (l : List Char) : Bool :=
  let l1 := match l with
    | c :: r => if c = '-' then r else l
    | [] => l
  let l2 := l1.dropWhile Char.isDigit
  let afterFrac : Option (List Char) :=
    match l2 with
    | c :: r =>
      if c = '.' then
        if (r.takeWhile Char.isDigit).isEmpty then Option.none
        else some (r.dropWhile Char.isDigit)
      else some l2
    | [] => some l2
  match afterFrac with
  | Option.none => false
  | some l3 =>
    let afterExp : Option (List Char) :=
      match l3 with
      | c :: r =>
        if c = 'e' then
          let r2 := match r with
            | d :: rr => if d = '-' then rr else r
            | [] => r
          if (r2.takeWhile Char.isDigit).isEmpty then Option.none
          else some (r2.dropWhile Char.isDigit)
        else some l3
      | [] => some l3
    match afterExp with
    | Option.none => false
    | some l4 => l4.isEmpty

/-! ### `validators.py`: validator instances and the generic dispatch -/

/-- The built-in validator classes with their constructor-supplied state
(numeric bounds already passed through `int()`, choice sets already
lower-cased / dot-prefixed, as done in the Python constructors). -/
inductive VKind where
  | required : VKind
  | requiredWith (other : String) : VKind
  | requiredWithout (other : String) : VKind
  | requiredIf (other otherValue : String) : VKind
  | minV (n : Int) : VKind
  | maxV (n : Int) : VKind
  | between (lo hi : Int) : VKind
  | regex (pattern : String) : VKind
  | integer : VKind
  | numeric : VKind
  | inV (choices : List String) : VKind
  | notInV (choices : List String) : VKind
  | extInV (choices : List String) : VKind
  | extNotInV (choices : List String) : VKind
deriving DecidableEq, Repr

/-- The `nullable` class attribute: `False` exactly for the four
required-family validators. -/
def VKind.nullable : VKind → Bool
  | .required | .requiredWith _ | .requiredWithout _ | .requiredIf _ _ => false
  | _ => true

/-- The `code` class attribute of each validator class. -/
def VKind.code : VKind → String
  | .required => "required_validator"
  | .requiredWith _ => "required_with_validator"
  | .requiredWithout _ => "required_without_validator"
  | .requiredIf _ _ => "required_if_validator"
  | .minV _ => "min_validator"
  | .maxV _ => "max_validator"
  | .between _ _ => "between_validator"
  | .regex _ => "regex_validator"
  | .integer => "integer_validator"
  | .numeric => "numeric_validator"
  | .inV _ => "in_validator"
  | .notInV _ => "not_in_validator"
  | .extInV _ => "ext_in_validator"
  | .extNotInV _ => "ext_not_in_validator"

/-- A validator instance: its kind plus the `message` attribute as set at
construction time (class default, custom message, or the constructor-formatted
message of the required-with family). -/
structure ValidatorInst where
  kind : VKind
  message : String
deriving DecidableEq, Repr

/-- `RequiredValidator.required_valid`. -/
def requiredValid : Value → Bool
  | .none => false
  | .str s => !(pyStrip s).isEmpty
  | _ => true

/-- `os.path.splitext(name)[1]` restricted to plain file names (no path
separators): the extension including the dot, empty for dot-less names and
for names consisting only of leading dots. -/
def extOf (name : String) : String :=
  let core := name.data.dropWhile (· == '.')
  let revCore := core.reverse
  let revExt := revCore.takeWhile (fun c => c != '.')
  if revExt.length = revCore.length then ""
  else String.mk ('.' :: revExt.reverse)

/-- The `clean` hook of each validator class: identity by default, string
coercion for the regex family, lower-cased string coercion for In/NotIn, and
the file-name extension for ExtIn/ExtNotIn (an `AttributeError` on values
with no `.name`, as in Python). -/
def VKind.clean (k : VKind) (v : Value) : Except PyExc Value :=
  match k with
  | .regex _ | .integer | .numeric =>
    .ok (.str (if v.isNone then "" else pyStr v))
  | .inV _ | .notInV _ =>
    .ok (.str (if v.isNone then "" else pyLower (pyStr v)))
  | .extInV _ | .extNotInV _ =>
    match v with
    | .file name _ => .ok (.str (pyLower (extOf name)))
    | _ => .error (.attributeError ("'" ++ pyTypeName v ++ "' object has no attribute 'name'"))
  | _ => .ok v

/-- CPython 2 `value >= n` for values reaching the numeric branch of
Min/Max/Between: numbers compare numerically, values of other types by
type name (`None` below everything, `'File' < 'int' < 'list'/'str'`). -/
def pyGeNum (v : Value) (n : Int) : Bool :=
  match asNum v with
  | some (m, e) =>
    if 0 ≤ e then decide (n ≤ m * 10 ^ e.toNat) else decide (n * 10 ^ (-e).toNat ≤ m)
  | Option.none =>
    match v with
    | .str _ => true
    | .list _ => true
    | _ => false

/-- CPython 2 `value <= n`, same conventions as `pyGeNum`. -/
def pyLeNum (v : Value) (n : Int) : Bool :=
  match asNum v with
  | some (m, e) =>
    if 0 ≤ e then decide (m * 10 ^ e.toNat ≤ n) else decide (m ≤ n * 10 ^ (-e).toNat)
  | Option.none =>
    match v with
    | .none => true
    | .file _ _ => true
    | _ => false

/-- The string content of a cleaned value (the regex/in/ext families always
clean to a string; other values are stringified defensively). -/
def valueStr : Value → String
  | .str s => s
  | v => pyStr v

/-- The `is_valid` hook of each validator class, returning the predicate
outcome together with the instance's `message` after `is_valid` ran (the
Min/Max/Between classes assign a branch-specific message to `self.message`
before returning). -/
def isValidEval (inst : ValidatorInst) (cleaned : Value) (params : KW) : Bool × String :=
  match inst.kind with
  | .required => (requiredValid cleaned, inst.message)
  | .requiredWith other =>
    (if (kwGet params other).isNone then true else requiredValid cleaned, inst.message)
  | .requiredWithout other =>
    (if (kwGet params other).isNone then requiredValid cleaned else true, inst.message)
  | .requiredIf other otherValue =>
    (let ov := kwGet params other
     if !ov.isNone && pyStr ov == otherValue then requiredValid cleaned else true,
     inst.message)
  | .minV n =>
    match cleaned with
    | .str s => (decide (n ≤ (s.length : Int)),
        "The {key} must be at least " ++ pyIntStr n ++ " characters.")
    | .file _ size => (decide (n ≤ size),
        "The {key} must be at least " ++ pyIntStr n ++ " bytes.")
    | v => (pyGeNum v n, "The {key} must be at least " ++ pyIntStr n ++ ".")
  | .maxV n =>
    match cleaned with
    | .str s => (decide ((s.length : Int) ≤ n),
        "The {key} may not be greater than " ++ pyIntStr n ++ " characters.")
    | .file _ size => (decide (size ≤ n),
        "The {key} must not be at greater " ++ pyIntStr n ++ " bytes.")
    | v => (pyLeNum v n, "The {key} may not be greater than " ++ pyIntStr n ++ ".")
  | .between lo hi =>
    match cleaned with
    | .str s => (decide (lo ≤ (s.length : Int)) && decide ((s.length : Int) ≤ hi),
        "The {key} must be between " ++ pyIntStr lo ++ " and " ++ pyIntStr hi ++ " characters.")
    | .file _ size => (decide (lo ≤ size) && decide (size ≤ hi),
        "The {key} must be between " ++ pyIntStr lo ++ " and " ++ pyIntStr hi ++ " bytes.")
    | v => (pyGeNum v lo && pyLeNum v hi,
        "The {key} must be between " ++ pyIntStr lo ++ " and " ++ pyIntStr hi ++ ".")
  | .regex p => (reMatch p (valueStr cleaned), inst.message)
  | .integer => (isIntegerLit (valueStr cleaned).data, inst.message)
  | .numeric => (isNumericLit (valueStr cleaned).data, inst.message)
  | .inV choices => (choices.contains (valueStr cleaned), inst.message)
  | .notInV choices => (!choices.contains (valueStr cleaned), inst.message)
  | .extInV choices => (choices.contains (valueStr cleaned), inst.message)
  | .extNotInV choices => (!choices.contains (valueStr cleaned), inst.message)

/-- Python `str.format` restricted to the placeholders the library's message
templates contain (`{key}`, `{value}`, `{show_value}`); other text is copied
verbatim. -/
def formatChars (key value showValue : List Char) : List Char → List Char
  | '{' :: 'k' :: 'e' :: 'y' :: '}' :: rest =>
    key ++ formatChars key value showValue rest
  | '{' :: 'v' :: 'a' :: 'l' :: 'u' :: 'e' :: '}' :: rest =>
    value ++ formatChars key value showValue rest
  | '{' :: 's' :: 'h' :: 'o' :: 'w' :: '_' :: 'v' :: 'a' :: 'l' :: 'u' :: 'e' :: '}' :: rest =>
    showValue ++ formatChars key value showValue rest
  | c :: rest => c :: formatChars key value showValue rest
  | [] => []

def formatMsg (template key value showValue : String) : String :=
  String.mk (formatChars key.data value.data showValue.data template.data)

/-- `BaseValidator.__call__(key, params, verbose_key)`: look the value up in
the parameter map, short-circuit to success when it is `None` and the
validator is nullable, otherwise clean, evaluate `is_valid`, and on failure
raise a `ValidationError` with the interpolated (possibly branch-selected)
message, the validator's code and status 400. -/
def callValidator (inst : ValidatorInst) (key : String) (params : KW)
    (verboseKey : Option String) : Except PyExc Bool :=
  let value := kwGet params key
  if value.isNone && inst.kind.nullable then .ok true
  else
    let vk := verboseKey.getD key
    match inst.kind.clean value with
    | .error e => .error e
    | .ok cleaned =>
      let r := isValidEval inst cleaned params
      if r.1 then .ok true
      else .error (.validationError
        ⟨formatMsg r.2 vk (pyStr value) (pyStr cleaned), some inst.kind.code,
          HTTP_400_BAD_REQUEST⟩)

/-! ### `ValidatorRegistry` and the rule mini-language -/

/-- The registered validator classes (constructors). -/
inductive VClass where
  | requiredC | requiredWithC | requiredWithoutC | requiredIfC
  | maxC | minC | betweenC | regexC | integerC | numericC
  | inC | notInC | extInC | extNotInC
deriving DecidableEq, Repr

/-- `ValidatorRegistry._registry` after the module-level registrations, in
source order. -/
def validatorRegistry : List (String × VClass) :=
  [("required", .requiredC), ("required_with", .requiredWithC),
   ("required_without", .requiredWithoutC), ("required_if", .requiredIfC),
   ("max", .maxC), ("min", .minC), ("between", .betweenC), ("regex", .regexC),
   ("integer", .integerC), ("numeric", .numericC), ("in", .inC),
   ("not_in", .notInC), ("ext_in", .extInC), ("ext_not_in", .extNotInC)]

def requiredDefaultMsg : String := "The {key} is required."
def baseDefaultMsg : String := "The {key} is invalid."
def regexDefaultMsg : String := "The {key} format is invalid."
def integerDefaultMsg : String := "The {key} must be an integer."
def numericDefaultMsg : String := "The {key} must be a number."
def inDefaultMsg : String := "The selected {key} is invalid."
def extInDefaultMsg : String := "The extension type of {key} is invalid."

/-- ExtIn/ExtNotIn choice normalization: lower-case, and prepend a dot when
missing. -/
def extChoice (c : String) : String :=
  let c := pyLower c
  if c.startsWith "." then c else "." ++ c

/-- `validator_class(*args)`: each class's `__init__` applied to the parsed
rule arguments.  Wrong arity raises `TypeError`; `int()` on a non-integer
bound and an uncompilable regex raise as in Python.  A falsy (empty) custom
message leaves the class default in place; the required-with family always
overwrites the message with its constructor-formatted one. -/
def instantiate (c : VClass) (args : List String) : Except PyExc ValidatorInst :=
  match c, args with
  | .requiredC, [] => .ok ⟨.required, requiredDefaultMsg⟩
  | .requiredC, [m] => .ok ⟨.required, if m = "" then requiredDefaultMsg else m⟩
  | .requiredWithC, [o] => .ok ⟨.requiredWith o, "The {key} is required with " ++ o⟩
  | .requiredWithC, [o, _] => .ok ⟨.requiredWith o, "The {key} is required with " ++ o⟩
  | .requiredWithoutC, [o] => .ok ⟨.requiredWithout o, "The {key} is required without " ++ o⟩
  | .requiredWithoutC, [o, _] => .ok ⟨.requiredWithout o, "The {key} is required without " ++ o⟩
  | .requiredIfC, [o, ov] =>
    .ok ⟨.requiredIf o ov, "The {key} is required when " ++ o ++ " is " ++ ov⟩
  | .requiredIfC, [o, ov, _] =>
    .ok ⟨.requiredIf o ov, "The {key} is required when " ++ o ++ " is " ++ ov⟩
  | .minC, [a] =>
    match pyInt a with
    | some n => .ok ⟨.minV n, baseDefaultMsg⟩
    | Option.none => .error (.valueError ("invalid literal for int() with base 10: " ++ a))
  | .maxC, [a] =>
    match pyInt a with
    | some n => .ok ⟨.maxV n, baseDefaultMsg⟩
    | Option.none => .error (.valueError ("invalid literal for int() with base 10: " ++ a))
  | .betweenC, [a, b] =>
    match pyInt a, pyInt b with
    | some lo, some hi => .ok ⟨.between lo hi, baseDefaultMsg⟩
    | _, _ => .error (.valueError ("invalid literal for int() with base 10: " ++ a ++ "," ++ b))
  | .regexC, [p] =>
    match reCompile p with
    | some _ => .ok ⟨.regex p, regexDefaultMsg⟩
    | Option.none => .error (.plainExc ("cannot compile pattern: " ++ p))
  | .regexC, [p, m] =>
    match reCompile p with
    | some _ => .ok ⟨.regex p, if m = "" then regexDefaultMsg else m⟩
    | Option.none => .error (.plainExc ("cannot compile pattern: " ++ p))
  | .integerC, [] => .ok ⟨.integer, integerDefaultMsg⟩
  | .integerC, [m] => .ok ⟨.integer, if m = "" then integerDefaultMsg else m⟩
  | .numericC, [] => .ok ⟨.numeric, numericDefaultMsg⟩
  | .numericC, [m] => .ok ⟨.numeric, if m = "" then numericDefaultMsg else m⟩
  | .inC, cs => .ok ⟨.inV (cs.map pyLower), inDefaultMsg⟩
  | .notInC, cs => .ok ⟨.notInV (cs.map pyLower), inDefaultMsg⟩
  | .extInC, cs => .ok ⟨.extInV (cs.map extChoice), extInDefaultMsg⟩
  | .extNotInC, cs => .ok ⟨.extNotInV (cs.map extChoice), extInDefaultMsg⟩
  | _, _ => .error (.typeError "__init__() got an unexpected number of arguments")

/-- One iteration of the `get_validators` loop: split a rule into name and
argument text (at most two splits on `:` — three pieces make the tuple
unpacking raise `ValueError`), strip, resolve the class (a plain `Exception`
when unknown) and instantiate it. -/
def parseRule (rule : String) : Except PyExc ValidatorInst :=
  match
    (if containsChar ':' rule then
      match pySplitLimit ':' 2 rule with
      | [n, a] => Except.ok (pyStrip n, (pySplit ',' a).map pyStrip)
      | _ => Except.error (PyExc.valueError "too many values to unpack")
    else Except.ok (pyStrip rule, ([] : List String)))
  with
  | .error e => .error e
  | .ok (name, args) =>
    match List.lookup name validatorRegistry with
    | some c => instantiate c args
    | Option.none => .error (.plainExc ("Can not resolve validator class: " ++ name ++ "."))

def getValidatorsAux : List String → Except PyExc (List ValidatorInst)
  | [] => .ok []
  | r :: rest =>
    match parseRule r with
    | .error e => .error e
    | .ok v =>
      match getValidatorsAux rest with
      | .error e => .error e
      | .ok vs => .ok (v :: vs)

/-- `ValidatorRegistry.get_validators`: a falsy (absent or empty) rule string
yields no validators; otherwise the string is split on `|` and each rule
parsed and instantiated in order, the first failure aborting. -/
def get_validators (validatorStr : Option String) : Except PyExc (List ValidatorInst) :=
  match validatorStr with
  | Option.none => .ok []
  | some s => if s = "" then .ok [] else getValidatorsAux (pySplit '|' s)

/-! ### `converters.py`: converters and their registry -/

/-- The concrete converter classes defined by the module. -/
inductive ConverterKind where
  | string | integer | float | boolean | file
deriving DecidableEq, Repr

/-- `ConverterRegistry._registry` after the metaclass auto-registered the
built-in converters, in class definition order, under the names from each
class's `Meta`. -/
def converterRegistry : List (String × ConverterKind) :=
  [("string", .string), ("str", .string), ("integer", .integer), ("int", .integer),
   ("float", .float), ("boolean", .boolean), ("bool", .boolean), ("file", .file)]

namespace ConverterRegistry

/-- `ConverterRegistry.get(name)`: `dict.get` with `StringConverter` as the
default. `None` is never a registered key, so it also yields the default.
This lookup is total — it has no failure path. -/
def get (name : Option String) : ConverterKind :=
  match name with
  | some n => (List.lookup n converterRegistry).getD ConverterKind.string
  | Option.none => ConverterKind.string

end ConverterRegistry

/-- The validator instances stored as class attributes of
`IntegerConverter` and `FloatConverter`. -/
def integerValidatorInstance : ValidatorInst := ⟨.integer, integerDefaultMsg⟩
def numericValidatorInstance : ValidatorInst := ⟨.numeric, numericDefaultMsg⟩

/-- `int(value)` truncates floats toward zero. -/
def floatTrunc (m e : Int) : Int :=
  if 0 ≤ e then m * 10 ^ e.toNat else Int.tdiv m (10 ^ (-e).toNat)

/-- Python `int(value)` on the modelled values. -/
def pyIntValue : Value → Except PyExc Value
  | .str s =>
    match pyInt s with
    | some n => .ok (.int n)
    | Option.none => .error (.valueError ("invalid literal for int() with base 10: " ++ s))
  | .int n => .ok (.int n)
  | .bool b => .ok (.int (if b then 1 else 0))
  | .float m e => .ok (.int (floatTrunc m e))
  | v => .error (.typeError ("int() argument must be a string or a number, not " ++ pyTypeName v))

/-- Python `float(s)`: optional sign, integer part, optional fractional part,
optional exponent; at least one mantissa digit.  The result is the exact
decimal value `mant * 10 ^ exp` (IEEE rounding is outside the modelled
scope; `inf`/`nan` literals and surrounding whitespace are not modelled —
the library only reaches `float()` behind the numeric-grammar validator). -/
def parseFloat (s : String) : Option (Int × Int) :=
  let l := s.data
  let signAndRest : Int × List Char :=
    match l with
    | c :: r => if c = '-' then (-1, r) else if c = '+' then (1, r) else (1, l)
    | [] => (1, l)
  let sign := signAndRest.1
  let l1 := signAndRest.2
  let ip := l1.takeWhile Char.isDigit
  let r1 := l1.dropWhile Char.isDigit
  let fracAndRest : List Char × List Char :=
    match r1 with
    | c :: r => if c = '.' then (r.takeWhile Char.isDigit, r.dropWhile Char.isDigit) else ([], r1)
    | [] => ([], r1)
  let fp := fracAndRest.1
  let r2 := fracAndRest.2
  if ip.isEmpty && fp.isEmpty then Option.none
  else
    let mant : Int := sign * (parseNatDigits (ip ++ fp) : Int)
    let exp0 : Int := -(fp.length : Int)
    match r2 with
    | [] => some (mant, exp0)
    | c :: r3 =>
      if c = 'e' || c = 'E' then
        let esignAndRest : Int × List Char :=
          match r3 with
          | d :: rr => if d = '-' then (-1, rr) else if d = '+' then (1, rr) else (1, r3)
          | [] => (1, r3)
        let ed := esignAndRest.2.takeWhile Char.isDigit
        let r4 := esignAndRest.2.dropWhile Char.isDigit
        if ed.isEmpty || !r4.isEmpty then Option.none
        else some (mant, exp0 + esignAndRest.1 * (parseNatDigits ed : Int))
      else Option.none

/-- Python `float(value)` on the modelled values. -/
def pyFloatValue : Value → Except PyExc Value
  | .str s =>
    match parseFloat s with
    | some (m, e) => .ok (.float m e)
    | Option.none => .error (.valueError ("could not convert string to float: " ++ s))
  | .int n => .ok (.float n 0)
  | .bool b => .ok (.float (if b then 1 else 0) 0)
  | .float m e => .ok (.float m e)
  | v => .error (.typeError ("float() argument must be a string or a number, not " ++ pyTypeName v))

/-- `IntegerConverter.convert(key, string)`: `None` passes through; otherwise
the integer-grammar validator runs on `{key: string}` and then `int(string)`
is applied. -/
def integerConvert (key : String) (v : Value) : Except PyExc Value :=
  if v.isNone then .ok Value.none
  else
    match callValidator integerValidatorInstance key [(key, v)] Option.none with
    | .error e => .error e
    | .ok _ => pyIntValue v

/-- `FloatConverter.convert(key, string)`: `None` passes through; otherwise
the numeric-grammar validator runs and then `float(string)` is applied. -/
def floatConvert (key : String) (v : Value) : Except PyExc Value :=
  if v.isNone then .ok Value.none
  else
    match callValidator numericValidatorInstance key [(key, v)] Option.none with
    | .error e => .error e
    | .ok _ => pyFloatValue v

/-- `BooleanConverter.false_values = {None, False, 'false', 'False', 0, '0'}`.
The Python set coalesces `0` with `False` (they are `==` and hash alike);
membership is unaffected, so the set is modelled as the written list. -/
def falseValues : List Value :=
  [Value.none, Value.bool false, Value.str "false", Value.str "False",
   Value.int 0, Value.str "0"]

/-- `BooleanConverter.convert(key, string)`: `string not in false_values`.
`false_values` is a set, so the membership test hashes the operand first:
an unhashable value (a list) raises `TypeError`; every hashable value is
then compared with Python `==` and the test cannot fail. -/
def booleanConvert (v : Value) : Except PyExc Bool :=
  match v with
  | .list _ => .error (.typeError "unhashable type: 'list'")
  | _ => .ok (!(falseValues.any (fun fv => pyEq fv v)))

/-- `converter.convert(key, value)` for each registered converter class
(`StringConverter` and `FileConverter` pass the value through). -/
def ConverterKind.convert : ConverterKind → String → Value → Except PyExc Value
  | .string, _, v => .ok v
  | .integer, key, v => integerConvert key v
  | .float, key, v => floatConvert key v
  | .boolean, _, v =>
    match booleanConvert v with
    | .ok b => .ok (.bool b)
    | .error e => .error e
  | .file, _, v => .ok v

/-! ### `decorators.py`: parameter descriptors and the handler wrapper -/

/-- The request collaborator: a Django `HttpRequest` or a REST-framework
`Request`.  `Option` fields model attribute presence probed by `hasattr`
(`query_params`, `data`, `DATA`); `GET`, `POST`, `FILES` and `META` always
exist on a genuine request object. -/
structure Request where
  queryParams : Option KW
  httpGet : KW
  data : Option KW
  dataUpper : Option KW
  post : KW
  files : KW
  meta : KW

/-- The value the wrapper ends up using as "the request": either a genuine
request object, or — through the `request = args[0]` fallback — an arbitrary
value. -/
inductive ReqVal where
  | req (r : Request) : ReqVal
  | val (v : Value) : ReqVal

/-- Python truthiness of the resolved request: request objects define no
`__bool__`/`__len__`, hence are truthy. -/
def ReqVal.truthy : ReqVal → Bool
  | .req _ => true
  | .val v => pyTruthy v

/-- `AttributeError` text for attribute access on a non-request value. -/
def noAttr (v : Value) (attr : String) : String :=
  "'" ++ pyTypeName v ++ "' object has no attribute '" ++ attr ++ "'"

/-- `_get_lookup`: `query_params` when present (REST framework), else `GET`.
On a non-request value the `request.GET` access raises `AttributeError`. -/
def get_lookup (request : ReqVal) (name : String) (default : Value) : Except PyExc Value :=
  match request with
  | .req r =>
    match r.queryParams with
    | some qp => .ok (kwGetD qp name default)
    | Option.none => .ok (kwGetD r.httpGet name default)
  | .val v => .error (.attributeError (noAttr v "GET"))

/-- `_post_lookup`: `data` (DRF 3), else `DATA` (old DRF), else `POST`. -/
def post_lookup (request : ReqVal) (name : String) (default : Value) : Except PyExc Value :=
  match request with
  | .req r =>
    match r.data with
    | some d => .ok (kwGetD d name default)
    | Option.none =>
      match r.dataUpper with
      | some d => .ok (kwGetD d name default)
      | Option.none => .ok (kwGetD r.post name default)
  | .val v => .error (.attributeError (noAttr v "POST"))

/-- `_file_lookup`: `data` when present, else `FILES`. -/
def file_lookup (request : ReqVal) (name : String) (default : Value) : Except PyExc Value :=
  match request with
  | .req r =>
    match r.data with
    | some d => .ok (kwGetD d name default)
    | Option.none => .ok (kwGetD r.files name default)
  | .val v => .error (.attributeError (noAttr v "FILES"))

/-- `_post_or_get_lookup`: the POST value when not `None`, else the GET
value with the caller's default. -/
def post_or_get_lookup (request : ReqVal) (name : String) (default : Value) :
    Except PyExc Value :=
  match post_lookup request name Value.none with
  | .error e => .error e
  | .ok v => if v.isNone then get_lookup request name default else .ok v

/-- `_header_lookup`: `META` when the request is not `None` and has one;
otherwise the default (the modelled plain values have no `META`). -/
def header_lookup (request : ReqVal) (name : String) (default : Value) : Except PyExc Value :=
  match request with
  | .req r => .ok (kwGetD r.meta name default)
  | .val _ => .ok default

/-- `_uri_lookup`: the current keyword map when it has the name, else the
extra kwargs captured from an `APIView`; with no captured kwargs the
`None.get(...)` access raises `AttributeError`. -/
def uri_lookup (name : String) (default : Value) (kwargs : KW) (extraKwargs : Option KW) :
    Except PyExc Value :=
  if kwHas kwargs name then .ok (kwGet kwargs name)
  else
    match extraKwargs with
    | some e => .ok (kwGetD e name default)
    | Option.none => .error (.attributeError "'NoneType' object has no attribute 'get'")

/-- The six built-in extraction sources (`GET`, `POST`, `FILE`, `POST_OR_GET`,
`HEADER`, `URI` are partial applications of `param` with these). -/
inductive LookupKind where
  | get | post | file | postOrGet | header | uri
deriving DecidableEq, Repr

def runLookup : LookupKind → ReqVal → String → Value → KW → Option KW → Except PyExc Value
  | .get, request, name, default, _, _ => get_lookup request name default
  | .post, request, name, default, _, _ => post_lookup request name default
  | .file, request, name, default, _, _ => file_lookup request name default
  | .postOrGet, request, name, default, _, _ => post_or_get_lookup request name default
  | .header, request, name, default, _, _ => header_lookup request name default
  | .uri, _, name, default, kwargs, extraKwargs => uri_lookup name default kwargs extraKwargs

/-- `_Param`: one parameter descriptor, with the defaults of `param(...)`
already applied (`related_name`/`verbose_name` fall back to `name`, the
validator list is the parsed rule string concatenated with the explicit
validator instances). -/
structure Param where
  name : String
  relatedName : String
  verboseName : String
  default : Value
  type : Option String
  lookup : LookupKind
  many : Bool
  separator : String
  validators : List ValidatorInst

/-- The `param(...)` factory / `_Param.__init__`: falsy `related_name` and
`verbose_name` fall back to `name`; the rule string is parsed by
`ValidatorRegistry.get_validators` (which may raise at decoration time) and
explicit validator instances are appended. -/
def mkParam (name : String) (relatedName verboseName : Option String) (default : Value)
    (type : Option String) (lookup : LookupKind) (many : Bool) (separator : String)
    (validators : Option String) (validatorClasses : List ValidatorInst) :
    Except PyExc Param :=
  match get_validators validators with
  | .error e => .error e
  | .ok vs =>
    .ok ⟨name,
      (match relatedName with
       | some r => if r = "" then name else r
       | Option.none => name),
      (match verboseName with
       | some r => if r = "" then name else r
       | Option.none => name),
      default, type, lookup, many, separator, vs ++ validatorClasses⟩

/-- First position where `sep` occurs as a sublist, split around it. -/
def findSepSplit (sep : List Char) : List Char → Option (List Char × List Char)
  | [] => Option.none
  | c :: rest =>
    if sep.isPrefixOf (c :: rest) then some ([], (c :: rest).drop sep.length)
    else
      match findSepSplit sep rest with
      | some (pre, post) => some (c :: pre, post)
      | Option.none => Option.none

def splitBySepAux (sep : List Char) : Nat → List Char → List (List Char)
  | 0, l => [l]
  | fuel + 1, l =>
    match findSepSplit sep l with
    | some (pre, post) => pre :: splitBySepAux sep fuel post
    | Option.none => [l]

/-- Python `s.split(sep)` with a non-empty string separator; an empty
separator raises `ValueError` as in Python. -/
def pySplitBySep (sep : String) (s : String) : Except PyExc (List String) :=
  if sep = "" then .error (.valueError "empty separator")
  else .ok ((splitBySepAux sep.data (s.length + 1) s.data).map String.mk)

def convertEach (conv : String → Value → Except PyExc Value) (name : String) :
    List Value → Except PyExc (List Value)
  | [] => .ok []
  | v :: rest =>
    match conv name v with
    | .error e => .error e
    | .ok cv =>
      match convertEach conv name rest with
      | .error e => .error e
      | .ok cvs => .ok (cv :: cvs)

/-- The `many=True` branch of `_Param._parse`: a string value is split on the
separator, `None` becomes the empty list, a list is used as-is, and each
element is converted in order; any other value is not iterable
(`TypeError`).  Iterating a `File` (line-wise) is outside the modelled
scope. -/
def manyConvert (conv : String → Value → Except PyExc Value) (name separator : String)
    (value : Value) : Except PyExc Value :=
  match value with
  | .str s =>
    match pySplitBySep separator s with
    | .error e => .error e
    | .ok parts =>
      match convertEach conv name (parts.map Value.str) with
      | .error e => .error e
      | .ok cvs => .ok (.list cvs)
  | .none => .ok (.list [])
  | .list l =>
    match convertEach conv name l with
    | .error e => .error e
    | .ok cvs => .ok (.list cvs)
  | v => .error (.typeError ("'" ++ pyTypeName v ++ "' object is not iterable"))

/-- The conversion inside `_parse`'s `try` block: with `many=True` the value
is split/iterated and each element converted, otherwise the single value is
converted once. -/
def convertStep (conv : String → Value → Except PyExc Value) (p : Param) (value : Value) :
    Except PyExc Value :=
  if p.many then manyConvert conv p.name p.separator value else conv p.name value

/-- The body of `_Param._parse` after the converter lookup, parameterized by
the converter's `convert` function: fetch the raw value (outside the `try`
block — its errors propagate raw), run the conversion (`convertStep`),
re-raise a `ValidationError` unchanged, wrap any other exception into
`ValidationError('Type Convert error: ...')` (no code, status 400), and
store the result under `related_name`. -/
def parseWith (conv : String → Value → Except PyExc Value) (p : Param) (request : ReqVal)
    (kwargs : KW) (extraKwargs : Option KW) : Except PyExc KW :=
  match runLookup p.lookup request p.name p.default kwargs extraKwargs with
  | .error e => .error e
  | .ok value =>
    match convertStep conv p value with
    | .ok cv => .ok (kwSet kwargs p.relatedName cv)
    | .error (.validationError e) => .error (.validationError e)
    | .error e =>
      .error (.validationError
        ⟨"Type Convert error: " ++ excMessage e, Option.none, HTTP_400_BAD_REQUEST⟩)

/-- `_Param._parse`: the converter is resolved from the registry by the
descriptor's type name and the body above runs. -/
def Param.parse (p : Param) (request : ReqVal) (kwargs : KW) (extraKwargs : Option KW) :
    Except PyExc KW :=
  parseWith (ConverterRegistry.get p.type).convert p request kwargs extraKwargs

/-- A positional argument of the wrapped call: a class-based view instance
(carrying its `request` attribute and, for an `APIView`, its `kwargs`
path-capture map), a request object, or any other value. -/
inductive Arg where
  | view (request : Option Request) (apiKwargs : Option KW) : Arg
  | request (r : Request) : Arg
  | plain (v : Value) : Arg

def isRequestArg : Arg → Bool
  | .request _ => true
  | _ => false

def argAsReqVal : Arg → ReqVal
  | .view r _ => (match r with | some req => .req req | Option.none => .val Value.none)
  | .request r => .req r
  | .plain v => .val v

/-- Request resolution of `_decorator` for a non-empty argument list: a
`View` first argument supplies its own `request` (and, when it is an
`APIView`, its `kwargs`); otherwise the first request-typed argument; with
none found, the fallback `request = args[0]`. -/
def resolveReq (a0 : Arg) (rest : List Arg) : ReqVal × Option KW :=
  match a0 with
  | .view r apiKw => (argAsReqVal (.view r apiKw), apiKw)
  | _ =>
    match (a0 :: rest).find? isRequestArg with
    | some a => (argAsReqVal a, Option.none)
    | Option.none => (argAsReqVal a0, Option.none)

/-- The first loop of `_decorator`: `_param._parse(request, kwargs, extra)`
for every descriptor, in order, threading the kwargs dict. -/
def parseAll (params : List Param) (request : ReqVal) (kwargs : KW) (extra : Option KW) :
    Except PyExc KW :=
  match params with
  | [] => .ok kwargs
  | p :: ps =>
    match p.parse request kwargs extra with
    | .error e => .error e
    | .ok kw => parseAll ps request kw extra

/-- The inner loop of the second pass: one descriptor's validators, in order,
against the shared kwargs map. -/
def runParamValidators (vs : List ValidatorInst) (key vkey : String) (kw : KW) :
    Except PyExc Unit :=
  match vs with
  | [] => .ok ()
  | v :: rest =>
    match callValidator v key kw (some vkey) with
    | .error e => .error e
    | .ok _ => runParamValidators rest key vkey kw

/-- The second loop of `_decorator`: every descriptor's validators, in
declaration order, each called as
`validator(related_name, kwargs, verbose_name)`. -/
def runAllValidators (params : List Param) (kw : KW) : Except PyExc Unit :=
  match params with
  | [] => .ok ()
  | p :: ps =>
    match runParamValidators p.validators p.relatedName p.verboseName kw with
    | .error e => .error e
    | .ok _ => runAllValidators ps kw

/-- `_decorator(*args, **kwargs)`, returning the argument list and keyword
map with which the wrapped handler is finally invoked (`.ok`), or the
exception that aborted the call before the handler ran (`.error`).  An empty
argument list calls the handler immediately; a falsy resolved request skips
the whole pipeline; otherwise all descriptors parse first and all validators
run second. -/
def wrapperCall (params : List Param) (args : List Arg) (kwargs : KW) :
    Except PyExc (List Arg × KW) :=
  match args with
  | [] => .ok ([], kwargs)
  | a0 :: rest =>
    let rk := resolveReq a0 rest
    if rk.1.truthy then
      match parseAll params rk.1 kwargs rk.2 with
      | .error e => .error e
      | .ok kw =>
        match runAllValidators params kw with
        | .error e => .error e
        | .ok _ => .ok (a0 :: rest, kw)
    else .ok (a0 :: rest, kwargs)

/-! ## Lemmas about decimal rendering and parsing (for the `int` round-trip) -/

theorem digitFacts (d : Nat) (hd : d < 10) :
    (digitChar d).isDigit = true ∧ digitVal (digitChar d) = d ∧ digitChar d ≠ '-' := by
  interval_cases d <;> exact ⟨by decide, by decide, by decide⟩

theorem isDigit_ne_minus (c : Char) (h : c.isDigit = true) : c ≠ '-' := by
  intro he; rw [he] at h; exact absurd h (by decide)

theorem isDigit_ne_plus (c : Char) (h : c.isDigit = true) : c ≠ '+' := by
  intro he; rw [he] at h; exact absurd h (by decide)

/-- `10 ^ (number of decimal digits of n)`, used only to state the fold
invariant of `natDecAux`. -/
def tenPow (n : Nat) : Nat :=
  if _h : n < 10 then 10 else 10 * tenPow (n / 10)
decreasing_by exact Nat.div_lt_self (by omega) (by omega)

theorem parse_natDecAux (n : Nat) : ∀ (fuel : Nat) (acc : List Char) (seed : Nat),
    n < fuel →
    List.foldl (fun a c => a * 10 + digitVal c) seed (natDecAux fuel n acc) =
    List.foldl (fun a c => a * 10 + digitVal c) (seed * tenPow n + n) acc := by
  induction n using Nat.strong_induction_on with
  | _ n ih =>
    intro fuel acc seed hlt
    match fuel with
    | 0 => exact absurd hlt (Nat.not_lt_zero n)
    | fuel + 1 =>
      simp only [natDecAux]
      by_cases h : n / 10 = 0
      · have hn : n < 10 := by omega
        have hmod : n % 10 = n := Nat.mod_eq_of_lt hn
        rw [if_pos h, List.foldl_cons, hmod, (digitFacts n hn).2.1]
        rw [tenPow, dif_pos hn]
      · have h10 : 10 ≤ n := by omega
        have htp : tenPow n = 10 * tenPow (n / 10) := by
          rw [tenPow]; rw [dif_neg (show ¬n < 10 by omega)]
        rw [if_neg h]
        rw [ih (n / 10) (by omega) fuel (digitChar (n % 10) :: acc) seed (by omega)]
        rw [List.foldl_cons, (digitFacts (n % 10) (by omega)).2.1, htp]
        have hsplit : (seed * tenPow (n / 10) + n / 10) * 10 + n % 10 =
            seed * (10 * tenPow (n / 10)) + (10 * (n / 10) + n % 10) := by ring
        rw [hsplit, Nat.div_add_mod]

theorem natDecAux_digits (n : Nat) : ∀ (fuel : Nat) (acc : List Char),
    n < fuel → acc.all Char.isDigit = true →
    (natDecAux fuel n acc).all Char.isDigit = true := by
  induction n using Nat.strong_induction_on with
  | _ n ih =>
    intro fuel acc hlt hacc
    match fuel with
    | 0 => exact absurd hlt (Nat.not_lt_zero n)
    | fuel + 1 =>
      simp only [natDecAux]
      have hd : (digitChar (n % 10)).isDigit = true := (digitFacts (n % 10) (by omega)).1
      by_cases h : n / 10 = 0
      · rw [if_pos h]
        simp [hd, hacc]
      · rw [if_neg h]
        exact ih (n / 10) (by omega) fuel _ (by omega) (by simp [hd, hacc])

theorem natDecAux_ne_nil (n : Nat) : ∀ (fuel : Nat) (acc : List Char),
    n < fuel → natDecAux fuel n acc ≠ [] := by
  induction n using Nat.strong_induction_on with
  | _ n ih =>
    intro fuel acc hlt
    match fuel with
    | 0 => exact absurd hlt (Nat.not_lt_zero n)
    | fuel + 1 =>
      simp only [natDecAux]
      by_cases h : n / 10 = 0
      · rw [if_pos h]; exact List.cons_ne_nil _ _
      · rw [if_neg h]; exact ih (n / 10) (by omega) fuel _ (by omega)

theorem parseNat_natDecChars (n : Nat) : parseNatDigits (natDecChars n) = n := by
  unfold natDecChars parseNatDigits
  rw [parse_natDecAux n (n + 1) [] 0 (by omega)]
  simp

theorem natDecChars_digits (n : Nat) : (natDecChars n).all Char.isDigit = true :=
  natDecAux_digits n (n + 1) [] (by omega) rfl

theorem natDecChars_ne_nil (n : Nat) : natDecChars n ≠ [] :=
  natDecAux_ne_nil n (n + 1) [] (by omega)

theorem pyInt_natDecChars (m : Nat) : pyInt (String.mk (natDecChars m)) = some (m : Int) := by
  obtain ⟨c, t, hct⟩ : ∃ c t, natDecChars m = c :: t := by
    cases h : natDecChars m with
    | nil => exact absurd h (natDecChars_ne_nil m)
    | cons c t => exact ⟨c, t, rfl⟩
  have hdig : (c :: t).all Char.isDigit = true := hct ▸ natDecChars_digits m
  have hc : c.isDigit = true := by
    have := hdig; simp [List.all_cons] at this; exact this.1
  have hp : parseNatDigits (c :: t) = m := by rw [← hct, parseNat_natDecChars]
  unfold pyInt
  show (match natDecChars m with
    | [] => Option.none
    | c :: rest => _) = some (m : Int)
  rw [hct]
  simp [if_neg (isDigit_ne_minus c hc), if_neg (isDigit_ne_plus c hc), hdig, hp]

theorem pyInt_pyIntStr (n : Int) : pyInt (pyIntStr n) = some n := by
  cases n with
  | ofNat m => exact pyInt_natDecChars m
  | negSucc m =>
    obtain ⟨c, t, hct⟩ : ∃ c t, natDecChars (m + 1) = c :: t := by
      cases h : natDecChars (m + 1) with
      | nil => exact absurd h (natDecChars_ne_nil (m + 1))
      | cons c t => exact ⟨c, t, rfl⟩
    have hdig : (c :: t).all Char.isDigit = true := hct ▸ natDecChars_digits (m + 1)
    have hp : parseNatDigits (c :: t) = m + 1 := by rw [← hct, parseNat_natDecChars]
    unfold pyIntStr intDecChars pyInt
    show (match '-' :: natDecChars (m + 1) with
      | [] => Option.none
      | c :: rest => _) = some (Int.negSucc m)
    rw [hct]
    simp [hdig, hp, Int.negSucc_eq]

theorem isIntegerLit_intDecChars (n : Int) : isIntegerLit (intDecChars n) = true := by
  cases n with
  | ofNat m =>
    obtain ⟨c, t, hct⟩ : ∃ c t, natDecChars m = c :: t := by
      cases h : natDecChars m with
      | nil => exact absurd h (natDecChars_ne_nil m)
      | cons c t => exact ⟨c, t, rfl⟩
    have hdig : (c :: t).all Char.isDigit = true := hct ▸ natDecChars_digits m
    have hc : c.isDigit = true := by
      have := hdig; simp [List.all_cons] at this; exact this.1
    show isIntegerLit (natDecChars m) = true
    rw [hct]
    unfold isIntegerLit
    simp only [if_neg (isDigit_ne_minus c hc), hdig]
  | negSucc m =>
    obtain ⟨c, t, hct⟩ : ∃ c t, natDecChars (m + 1) = c :: t := by
      cases h : natDecChars (m + 1) with
      | nil => exact absurd h (natDecChars_ne_nil (m + 1))
      | cons c t => exact ⟨c, t, rfl⟩
    have hdig : (c :: t).all Char.isDigit = true := hct ▸ natDecChars_digits (m + 1)
    show isIntegerLit ('-' :: natDecChars (m + 1)) = true
    rw [hct]
    unfold isIntegerLit
    simp [hdig]

/-! ## Lemmas about the rule-string splitting -/

theorem splitLimitAux_length (sep : Char) :
    ∀ (l acc : List Char) (n : Nat),
      (splitLimitAux sep l acc n).length = min (l.count sep) n + 1 := by
  intro l
  induction l with
  | nil => intro acc n; simp [splitLimitAux]
  | cons c rest ih =>
    intro acc n
    match n with
    | 0 => simp [splitLimitAux]
    | n + 1 =>
      simp only [splitLimitAux]
      by_cases h : c = sep
      · rw [if_pos h]
        simp [List.count_cons, ih, h]
        omega
      · rw [if_neg h]
        have hc : ¬(c == sep) = true := by simp [h]
        simp [List.count_cons, ih, hc]

theorem splitAux_no_sep (sep : Char) :
    ∀ (l acc : List Char), l.count sep = 0 → splitAux sep l acc = [acc.reverse ++ l] := by
  intro l
  induction l with
  | nil => intro acc _; simp [splitAux]
  | cons c rest ih =>
    intro acc h
    have hc : ¬c = sep := by
      intro he; subst he; simp [List.count_cons] at h
    have hr : rest.count sep = 0 := by
      simp [List.count_cons] at h; omega
    simp only [splitAux, if_neg hc]
    rw [ih _ hr]
    simp

/-! ## The validation pass as a flat fold (for the wrapper-ordering claim) -/

/-- The flattened sequence of `(related_name, verbose_name, validator)`
triples the second loop of `_decorator` walks through. -/
def flatVals : List Param → List (String × String × ValidatorInst)
  | [] => []
  | p :: ps => (p.validators.map fun v => (p.relatedName, p.verboseName, v)) ++ flatVals ps

def runOne (t : String × String × ValidatorInst) (kw : KW) : Except PyExc Unit :=
  match callValidator t.2.2 t.1 kw (some t.2.1) with
  | .error e => .error e
  | .ok _ => .ok ()

def runFlat (ts : List (String × String × ValidatorInst)) (kw : KW) : Except PyExc Unit :=
  match ts with
  | [] => .ok ()
  | t :: rest =>
    match runOne t kw with
    | .error e => .error e
    | .ok _ => runFlat rest kw

theorem runParam_eq_flat (vs : List ValidatorInst) (key vkey : String) (kw : KW) :
    runParamValidators vs key vkey kw = runFlat (vs.map fun v => (key, vkey, v)) kw := by
  induction vs with
  | nil => rfl
  | cons v rest ih =>
    simp only [runParamValidators, List.map_cons, runFlat, runOne]
    cases callValidator v key kw (some vkey) with
    | error e => rfl
    | ok b => exact ih

theorem runFlat_append (xs ys : List (String × String × ValidatorInst)) (kw : KW) :
    runFlat (xs ++ ys) kw =
      match runFlat xs kw with
      | .error e => .error e
      | .ok _ => runFlat ys kw := by
  induction xs with
  | nil => rfl
  | cons x rest ih =>
    simp only [List.cons_append, runFlat]
    cases runOne x kw with
    | error e => rfl
    | ok u => exact ih

theorem runAll_eq_flat (params : List Param) (kw : KW) :
    runAllValidators params kw = runFlat (flatVals params) kw := by
  induction params with
  | nil => rfl
  | cons p ps ih =>
    simp only [runAllValidators, flatVals, runFlat_append, ← runParam_eq_flat]
    cases runParamValidators p.validators p.relatedName p.verboseName kw with
    | error e => rfl
    | ok u => exact ih

theorem runFlat_all_ok (ts : List (String × String × ValidatorInst)) (kw : KW)
    (h : ∀ t ∈ ts, callValidator t.2.2 t.1 kw (some t.2.1) = .ok true) :
    runFlat ts kw = .ok () := by
  induction ts with
  | nil => rfl
  | cons t rest ih =>
    simp only [runFlat, runOne, h t (List.mem_cons_self t rest)]
    exact ih fun u hu => h u (List.mem_cons_of_mem t hu)

/-! ## The claims -/

/-- `True` iff the computation raised the library's `ValidationError`
(as opposed to succeeding or raising some other exception class). -/
def raisedValidationError {α : Type} : Except PyExc α → Bool
  | .error e => e.isVE
  | .ok _ => false

/-- C2: `get_validators "required | between:5,10"` parses the pipe-separated,
colon-argument rule string with whitespace trimmed into exactly a
`RequiredValidator` followed by a `BetweenValidator` with bounds `(5, 10)`;
an empty or absent rule string yields the empty list; an unregistered rule
name raises an error (a plain `Exception`) that is not a `ValidationError`. -/
theorem spec_c2 :
    get_validators (some "required | between:5,10") =
      .ok [⟨.required, requiredDefaultMsg⟩, ⟨.between 5 10, baseDefaultMsg⟩] ∧
    get_validators (some "") = .ok [] ∧
    get_validators Option.none = .ok [] ∧
    get_validators (some "bogus_rule") =
      .error (.plainExc "Can not resolve validator class: bogus_rule.") ∧
    raisedValidationError (get_validators (some "bogus_rule")) = false := by
  refine ⟨by decide, by decide, rfl, by decide, by decide⟩

/-- C3: `ConverterRegistry.get` is total: `None` and every unregistered name
yield the default `StringConverter`, and a registered name yields its
registered converter. -/
theorem spec_c3 :
    ConverterRegistry.get Option.none = ConverterKind.string ∧
    (∀ u : String, List.lookup u converterRegistry = Option.none →
      ConverterRegistry.get (some u) = ConverterRegistry.get Option.none) ∧
    (∀ (n : String) (c : ConverterKind), List.lookup n converterRegistry = some c →
      ConverterRegistry.get (some n) = c) := by
  refine ⟨rfl, ?_, ?_⟩
  · intro u hu; simp [ConverterRegistry.get, hu]
  · intro n c h; simp [ConverterRegistry.get, h]

/-- Witness for C3 at the unregistered name `"bogus"` and the registered
name `"int"`. -/
theorem spec_c3_witness :
    (List.lookup "bogus" converterRegistry = Option.none ∧
      ConverterRegistry.get (some "bogus") = ConverterRegistry.get Option.none) ∧
    (List.lookup "int" converterRegistry = some ConverterKind.integer ∧
      ConverterRegistry.get (some "int") = ConverterKind.integer) :=
  ⟨⟨by decide, spec_c3.2.1 "bogus" (by decide)⟩,
   ⟨by decide, spec_c3.2.2 "int" ConverterKind.integer (by decide)⟩⟩

/-- The claim's "the number zero": an integer or float value equal to zero
(boolean `False` is listed separately by the claim). -/
def numberZero : Value → Bool
  | .int n => n == 0
  | .float m _ => m == 0
  | _ => false

/-- On a hashable value the membership test runs and succeeds. -/
theorem booleanConvert_hashable (v : Value) (hv : pyHashable v = true) :
    booleanConvert v = .ok (!(falseValues.any fun fv => pyEq fv v)) := by
  cases v <;> first
    | rfl
    | simp [pyHashable] at hv

/-- The outcome of the membership test on a hashable value, characterised
by the claim's false set. -/
theorem booleanMembership_iff (v : Value) :
    (!(falseValues.any fun fv => pyEq fv v)) = false ↔
      (v = Value.none ∨ v = Value.bool false ∨ v = Value.str "false" ∨
        v = Value.str "False" ∨ numberZero v = true ∨ v = Value.str "0") := by
  cases v with
  | none =>
    simp only [falseValues, List.any_cons, List.any_nil, pyEq, asNum]
    simp [numberZero]
  | bool b =>
    have h1 : (!(falseValues.any fun fv => pyEq fv (Value.bool b))) = false ↔ b = false := by
      simp only [falseValues, List.any_cons, List.any_nil, pyEq, asNum, numEq]
      cases b <;> norm_num
    rw [h1]
    cases b <;> simp [numberZero]
  | int n =>
    have h1 : (!(falseValues.any fun fv => pyEq fv (Value.int n))) = false ↔ n = 0 := by
      simp only [falseValues, List.any_cons, List.any_nil, pyEq, asNum, numEq]
      norm_num
      exact eq_comm
    rw [h1]
    simp [numberZero]
  | float m e =>
    have h1 : (!(falseValues.any fun fv => pyEq fv (Value.float m e))) = false ↔ m = 0 := by
      simp only [falseValues, List.any_cons, List.any_nil, pyEq, asNum, numEq]
      by_cases he : (0 : Int) ≤ e
      · simp only [if_pos he]
        norm_num
      · simp only [if_neg he]
        norm_num
        exact eq_comm
    rw [h1]
    simp [numberZero]
  | str s =>
    simp only [falseValues, List.any_cons, List.any_nil, pyEq, asNum]
    simp only [numberZero, Bool.false_or, Bool.or_false, Bool.not_eq_false', Bool.or_eq_true,
      beq_iff_eq]
    constructor
    · rintro (h | h | h) <;> simp [h]
    · rintro (h | h | h | h | h | h) <;> simp_all
  | file name size =>
    simp only [falseValues, List.any_cons, List.any_nil, pyEq, asNum]
    simp [numberZero]
  | list l =>
    simp only [falseValues, List.any_cons, List.any_nil, pyEq, asNum, pyEqList]
    simp [numberZero]

/-- C5 counterexample: on a list value (e.g. the empty list, reachable as a
parameter default) `BooleanConverter.convert` does not return `true` — the
set-membership test raises `TypeError: unhashable type: 'list'`, so the
conversion can fail, contrary to the claim's "returns true for every other
input ... never fails". -/
theorem spec_c5_counterexample :
    booleanConvert (Value.list []) = .error (.typeError "unhashable type: 'list'") := by rfl

/-- C5 (amended): `BooleanConverter.convert` returns `false` exactly on
`{None, False, "false", "False", number-zero, "0"}` (Python `==`
membership, coalescing `0`, `0.0` and `False`), returns `true` for every
other **hashable** input, including `"0.0"`, `""` and `"true"` — on
hashable inputs it never fails — and raises `TypeError` on unhashable
values (lists). -/
theorem spec_c5_amended :
    (∀ v : Value, pyHashable v = true →
      (booleanConvert v = .ok false ↔
        (v = Value.none ∨ v = Value.bool false ∨ v = Value.str "false" ∨
          v = Value.str "False" ∨ numberZero v = true ∨ v = Value.str "0"))) ∧
    (∀ v : Value, pyHashable v = true →
      booleanConvert v = .ok false ∨ booleanConvert v = .ok true) ∧
    booleanConvert (Value.str "0.0") = .ok true ∧
    booleanConvert (Value.str "") = .ok true ∧
    booleanConvert (Value.str "true") = .ok true ∧
    (∀ l : List Value, booleanConvert (Value.list l) =
      .error (.typeError "unhashable type: 'list'")) := by
  refine ⟨?_, ?_, by decide, by decide, by decide, fun l => rfl⟩
  · intro v hv
    rw [booleanConvert_hashable v hv]
    simp only [Except.ok.injEq]
    exact booleanMembership_iff v
  · intro v hv
    rw [booleanConvert_hashable v hv]
    cases hb : (falseValues.any fun fv => pyEq fv v) <;> simp [hb]

/-- Witness for C5 (amended) at the hashable input `"0"`. -/
theorem spec_c5_witness :
    pyHashable (Value.str "0") = true ∧ booleanConvert (Value.str "0") = .ok false :=
  ⟨by decide,
   (spec_c5_amended.1 (Value.str "0") (by decide)).mpr
     (Or.inr (Or.inr (Or.inr (Or.inr (Or.inr rfl)))))⟩

/-- C4 counterexample: `RequiredWithValidator` is a built-in validator other
than `Required`, yet on an absent target value (with its sibling present) it
does **not** return success — its `nullable` is `False`, so `is_valid` runs
and the call raises. -/
theorem spec_c4_counterexample :
    callValidator ⟨.requiredWith "b", "The {key} is required with b"⟩ "a"
      [("b", Value.str "x")] Option.none =
    .error (.validationError
      ⟨"The a is required with b", some "required_with_validator", 400⟩) := by decide

/-- C4 (amended): the `nullable` short-circuit makes every validator whose
`nullable` flag is `True` — all built-ins except the four required-family
validators `Required`, `RequiredWith`, `RequiredWithout`, `RequiredIf` —
return success without evaluating `clean`/`is_valid` when the target value
is absent; exactly those four have `nullable = False`. -/
theorem spec_c4_amended :
    (∀ k : VKind, k.nullable = false ↔
      (k = .required ∨ (∃ o, k = .requiredWith o) ∨ (∃ o, k = .requiredWithout o) ∨
        (∃ o ov, k = .requiredIf o ov))) ∧
    (∀ (k : VKind) (m key : String) (params : KW) (vk : Option String),
      k.nullable = true → (kwGet params key).isNone = true →
      callValidator ⟨k, m⟩ key params vk = .ok true) := by
  constructor
  · intro k; cases k <;> simp [VKind.nullable]
  · intro k m key params vk hn hv
    simp only [callValidator, hv, hn]
    simp

/-- Witness for C4 (amended) at the `ExtIn` validator (whose `clean` would
raise an `AttributeError` on `None` were it evaluated) with an empty
parameter map. -/
theorem spec_c4_witness :
    (VKind.extInV [".jpg"]).nullable = true ∧ (kwGet [] "a").isNone = true ∧
    callValidator ⟨.extInV [".jpg"], extInDefaultMsg⟩ "a" [] Option.none = .ok true :=
  ⟨by decide, by decide,
    spec_c4_amended.2 (.extInV [".jpg"]) extInDefaultMsg "a" [] Option.none
      (by decide) (by decide)⟩

/-- C6: the decimal round-trip of `IntegerConverter`: for every integer `n`,
converting the decimal string `str(n)` yields `n` back (the integer-grammar
validator accepts it and `int` parses it); `convert(k, "abc")` fails with the
integer validator's `ValidationError`; and `convert(k, None)` returns
`None`. -/
theorem spec_c6 :
    (∀ (key : String) (n : Int),
      integerConvert key (Value.str (pyIntStr n)) = .ok (Value.int n)) ∧
    integerConvert "k" (Value.str "abc") =
      .error (.validationError
        ⟨"The k must be an integer.", some "integer_validator", 400⟩) ∧
    integerConvert "k" Value.none = .ok Value.none := by
  refine ⟨?_, by rfl, by rfl⟩
  intro key n
  have hval : kwGet [(key, Value.str (pyIntStr n))] key = Value.str (pyIntStr n) := by
    simp [kwGet, kwGetD]
  have hlit : isIntegerLit (pyIntStr n).data = true := isIntegerLit_intDecChars n
  simp only [integerConvert, callValidator, integerValidatorInstance, Value.isNone,
    Bool.false_and, Bool.false_eq_true, if_false, hval, VKind.clean, isValidEval, valueStr,
    pyStr, hlit]
  simp [pyIntValue, pyInt_pyIntStr]

/-- Witness for C6 at `n = -42`. -/
theorem spec_c6_witness :
    integerConvert "k" (Value.str (pyIntStr (-42))) = .ok (Value.int (-42)) :=
  spec_c6.1 "k" (-42)

/-- C7: `BetweenValidator(5, 10)` dispatches on the cleaned value's kind —
string length for strings, `.size` for files, direct comparison otherwise —
is inclusive at both bounds in all three branches, and the raised
`ValidationError` carries the branch-specific message selected before the
failure is raised. -/
theorem spec_c7 :
    callValidator ⟨.between 5 10, baseDefaultMsg⟩ "k" [("k", Value.int 5)] Option.none =
      .ok true ∧
    callValidator ⟨.between 5 10, baseDefaultMsg⟩ "k" [("k", Value.int 10)] Option.none =
      .ok true ∧
    callValidator ⟨.between 5 10, baseDefaultMsg⟩ "k" [("k", Value.int 4)] Option.none =
      .error (.validationError
        ⟨"The k must be between 5 and 10.", some "between_validator", 400⟩) ∧
    callValidator ⟨.between 5 10, baseDefaultMsg⟩ "k" [("k", Value.int 11)] Option.none =
      .error (.validationError
        ⟨"The k must be between 5 and 10.", some "between_validator", 400⟩) ∧
    callValidator ⟨.between 5 10, baseDefaultMsg⟩ "k" [("k", Value.str "abcde")] Option.none =
      .ok true ∧
    callValidator ⟨.between 5 10, baseDefaultMsg⟩ "k"
      [("k", Value.str "abcdefghij")] Option.none = .ok true ∧
    callValidator ⟨.between 5 10, baseDefaultMsg⟩ "k" [("k", Value.str "abcd")] Option.none =
      .error (.validationError
        ⟨"The k must be between 5 and 10 characters.", some "between_validator", 400⟩) ∧
    callValidator ⟨.between 5 10, baseDefaultMsg⟩ "k"
      [("k", Value.str "abcdefghijk")] Option.none =
      .error (.validationError
        ⟨"The k must be between 5 and 10 characters.", some "between_validator", 400⟩) ∧
    callValidator ⟨.between 5 10, baseDefaultMsg⟩ "k" [("k", Value.file "f.bin" 5)] Option.none =
      .ok true ∧
    callValidator ⟨.between 5 10, baseDefaultMsg⟩ "k"
      [("k", Value.file "f.bin" 10)] Option.none = .ok true ∧
    callValidator ⟨.between 5 10, baseDefaultMsg⟩ "k" [("k", Value.file "f.bin" 4)] Option.none =
      .error (.validationError
        ⟨"The k must be between 5 and 10 bytes.", some "between_validator", 400⟩) ∧
    callValidator ⟨.between 5 10, baseDefaultMsg⟩ "k"
      [("k", Value.file "f.bin" 11)] Option.none =
      .error (.validationError
        ⟨"The k must be between 5 and 10 bytes.", some "between_validator", 400⟩) := by
  refine ⟨by decide, by decide, by decide, by decide, by decide, by decide, by decide,
    by decide, by decide, by decide, by decide, by decide⟩

/-- C8 counterexample: the `ValidationError` that `_parse` wraps a foreign
conversion exception into carries **no** error code (`code` is `None`, the
constructor default) — the type-conversion failure is identified only in the
message text.  Concrete input: a `float`-typed GET parameter receiving `""`
(which passes the numeric grammar but makes `float('')` raise
`ValueError`). -/
theorem spec_c8_counterexample :
    Param.parse ⟨"x", "x", "x", Value.none, some "float", .get, false, ",", []⟩
      (.req ⟨Option.none, [("x", Value.str "")], Option.none, Option.none, [], [], []⟩)
      [] Option.none =
    .error (.validationError
      ⟨"Type Convert error: could not convert string to float: ", Option.none, 400⟩) := by rfl

/-- C8 (amended): during any descriptor's `_parse` step (`many=True` — where
the conversion splits the value and converts each element — and
`many=False` alike), a `ValidationError` raised during conversion
propagates unchanged; any other exception is caught and re-raised as a
`ValidationError` whose message embeds the original error's text after
`"Type Convert error: "` — but whose `code` attribute is `None` rather than
a type-conversion-specific code; on success the converted value is stored
in the outgoing keyword map under `related_name`. -/
theorem spec_c8 (conv : String → Value → Except PyExc Value) (p : Param) (request : ReqVal)
    (kwargs : KW) (extra : Option KW) (value : Value)
    (hlook : runLookup p.lookup request p.name p.default kwargs extra = .ok value) :
    (∀ e, convertStep conv p value = .error (.validationError e) →
      parseWith conv p request kwargs extra = .error (.validationError e)) ∧
    (∀ exc, convertStep conv p value = .error exc → exc.isVE = false →
      parseWith conv p request kwargs extra =
        .error (.validationError
          ⟨"Type Convert error: " ++ excMessage exc, Option.none, 400⟩)) ∧
    (∀ cv, convertStep conv p value = .ok cv →
      parseWith conv p request kwargs extra = .ok (kwSet kwargs p.relatedName cv)) := by
  refine ⟨?_, ?_, ?_⟩
  · intro e he
    simp only [parseWith, hlook, he]
  · intro exc he hve
    cases exc with
    | validationError e => exact absurd hve (by simp [PyExc.isVE])
    | plainExc m => simp only [parseWith, hlook, he]; rfl
    | valueError m => simp only [parseWith, hlook, he]; rfl
    | typeError m => simp only [parseWith, hlook, he]; rfl
    | attributeError m => simp only [parseWith, hlook, he]; rfl
  · intro cv hc
    simp only [parseWith, hlook, hc]

/-- Witness for C8 (amended): the wrap branch applied to the concrete
`float`-converter failure on `""`. -/
theorem spec_c8_witness :
    parseWith ConverterKind.float.convert
      ⟨"x", "x", "x", Value.none, some "float", .get, false, ",", []⟩
      (.req ⟨Option.none, [("x", Value.str "")], Option.none, Option.none, [], [], []⟩)
      [] Option.none =
    .error (.validationError
      ⟨"Type Convert error: could not convert string to float: ", Option.none, 400⟩) :=
  (spec_c8 ConverterKind.float.convert
      ⟨"x", "x", "x", Value.none, some "float", .get, false, ",", []⟩
      (.req ⟨Option.none, [("x", Value.str "")], Option.none, Option.none, [], [], []⟩)
      [] Option.none (Value.str "") rfl).2.1
    (.valueError "could not convert string to float: ") rfl rfl

/-- C9 counterexample: a call whose arguments contain **no** request object
is not passed through unchanged: the wrapper falls back to treating the
truthy first argument (here the integer `1`) as the request and runs the
pipeline against it, so a GET-parameter lookup raises `AttributeError` and
the handler is never invoked. -/
theorem spec_c9_counterexample :
    wrapperCall [⟨"x", "x", "x", Value.none, some "string", .get, false, ",", []⟩]
      [Arg.plain (Value.int 1)] [] =
    .error (.attributeError "'int' object has no attribute 'GET'") := by rfl

/-- C9 (amended): the wrapper passes the call through unchanged (handler
invoked with the original arguments, no extraction/conversion/validation and
no pipeline error) exactly in two situations: the argument list is empty, or
the resolved request value is falsy (e.g. a `None` first argument, or a view
whose `request` attribute is `None`).  When the arguments contain no request
object but the first argument is truthy, the pipeline still runs, treating
that argument as the request. -/
theorem spec_c9_amended (params : List Param) :
    (∀ kwargs : KW, wrapperCall params [] kwargs = .ok ([], kwargs)) ∧
    (∀ (a0 : Arg) (rest : List Arg) (kwargs : KW),
      (resolveReq a0 rest).1.truthy = false →
      wrapperCall params (a0 :: rest) kwargs = .ok (a0 :: rest, kwargs)) := by
  constructor
  · intro kwargs; rfl
  · intro a0 rest kwargs h
    simp only [wrapperCall, h, Bool.false_eq_true, if_false]

/-- Witness for C9 (amended): a `None` first argument resolves to a falsy
request, and the handler receives the original arguments unchanged. -/
theorem spec_c9_witness :
    (resolveReq (Arg.plain Value.none) []).1.truthy = false ∧
    wrapperCall [⟨"x", "x", "x", Value.none, some "string", .get, false, ",", []⟩]
      [Arg.plain Value.none] [("k", Value.int 7)] =
      .ok ([Arg.plain Value.none], [("k", Value.int 7)]) :=
  ⟨rfl, (spec_c9_amended [⟨"x", "x", "x", Value.none, some "string", .get, false, ",", []⟩]).2
    (Arg.plain Value.none) [] [("k", Value.int 7)] rfl⟩

/-- C10: a single rule whose text contains two or more `:` characters makes
`get_validators` fail with the tuple-unpacking `ValueError`: the
`split(':', 2)` produces three pieces, so an argument containing a literal
colon cannot be expressed in the rule language. -/
theorem spec_c10 (rule : String) (h1 : rule.data.count '|' = 0)
    (h2 : 2 ≤ rule.data.count ':') :
    get_validators (some rule) = .error (.valueError "too many values to unpack") := by
  have hne : rule ≠ "" := by
    intro he
    rw [he] at h2
    simp at h2
  have hsplit : pySplit '|' rule = [rule] := by
    unfold pySplit
    rw [splitAux_no_sep _ _ _ h1]
    simp
  have hcontains : containsChar ':' rule = true := by
    unfold containsChar
    have hmem : ':' ∈ rule.data := by
      have : 0 < rule.data.count ':' := by omega
      exact List.count_pos_iff.mp this
    simp only [List.any_eq_true]
    exact ⟨':', hmem, by simp⟩
  have hlen : (pySplitLimit ':' 2 rule).length = 3 := by
    unfold pySplitLimit
    rw [List.length_map, splitLimitAux_length]
    omega
  have hrule : parseRule rule = .error (.valueError "too many values to unpack") := by
    unfold parseRule
    rw [if_pos hcontains]
    rcases hsl : pySplitLimit ':' 2 rule with _ | ⟨x, _ | ⟨y, _ | ⟨z, rest⟩⟩⟩
    · rfl
    · rfl
    · rw [hsl] at hlen; simp at hlen
    · rfl
  simp only [get_validators]
  rw [if_neg hne, hsplit]
  simp only [getValidatorsAux, hrule]

/-- Witness for C10 at the rule `"regex:^a:b$"`. -/
theorem spec_c10_witness :
    ("regex:^a:b$" : String).data.count '|' = 0 ∧
    2 ≤ ("regex:^a:b$" : String).data.count ':' ∧
    get_validators (some "regex:^a:b$") = .error (.valueError "too many values to unpack") :=
  ⟨by decide, by decide, spec_c10 "regex:^a:b$" (by decide) (by decide)⟩

/-- C1: whenever the wrapper resolves a (truthy) request, it first runs
`_parse` for every declared descriptor in order (producing the fully
populated keyword map `kw`), and only then runs the descriptors' validators,
in declaration order, each reading that same fully populated map (so
cross-parameter rules see sibling values regardless of declaration order);
if every validator succeeds the handler is invoked with the original
positional arguments and `kw`, and the first validator to fail aborts the
call with its error — the handler is never invoked. -/
theorem spec_c1 (params : List Param) (a0 : Arg) (rest : List Arg) (kwargs kw : KW)
    (htr : (resolveReq a0 rest).1.truthy = true)
    (hparse : parseAll params (resolveReq a0 rest).1 kwargs (resolveReq a0 rest).2 = .ok kw) :
    (runAllValidators params kw = .ok () →
      wrapperCall params (a0 :: rest) kwargs = .ok (a0 :: rest, kw)) ∧
    (∀ (done : List (String × String × ValidatorInst)) (v : String × String × ValidatorInst)
        (later : List (String × String × ValidatorInst)) (e : PyExc),
      flatVals params = done ++ v :: later →
      (∀ u ∈ done, callValidator u.2.2 u.1 kw (some u.2.1) = .ok true) →
      callValidator v.2.2 v.1 kw (some v.2.1) = .error e →
      wrapperCall params (a0 :: rest) kwargs = .error e) := by
  constructor
  · intro hok
    simp only [wrapperCall, htr, if_true, hparse, hok]
  · intro done v later e hsplit hdone hv
    have hfail : runAllValidators params kw = .error e := by
      rw [runAll_eq_flat, hsplit, runFlat_append, runFlat_all_ok done kw hdone]
      simp only [runFlat, runOne, hv]
    simp only [wrapperCall, htr, if_true, hparse, hfail]

/-- Witness for C1: two GET string parameters `a` (declared first, carrying
`RequiredWith("b")`) and `b`; the request supplies only `b`.  Both
descriptors parse first, then `a`'s validator reads the fully populated map,
sees the sibling `b`, and fails — the wrapper aborts with that exact error
and the handler is not invoked. -/
theorem spec_c1_witness :
    wrapperCall
      [⟨"a", "a", "a", Value.none, some "string", .get, false, ",",
        [⟨.requiredWith "b", "The {key} is required with b"⟩]⟩,
       ⟨"b", "b", "b", Value.none, some "string", .get, false, ",", []⟩]
      [Arg.request ⟨Option.none, [("b", Value.str "1")], Option.none, Option.none, [], [], []⟩]
      [] =
    .error (.validationError
      ⟨"The a is required with b", some "required_with_validator", 400⟩) :=
  (spec_c1
      [⟨"a", "a", "a", Value.none, some "string", .get, false, ",",
        [⟨.requiredWith "b", "The {key} is required with b"⟩]⟩,
       ⟨"b", "b", "b", Value.none, some "string", .get, false, ",", []⟩]
      (Arg.request ⟨Option.none, [("b", Value.str "1")], Option.none, Option.none, [], [], []⟩)
      [] [] [("a", Value.none), ("b", Value.str "1")] rfl rfl).2
    [] ("a", "a", ⟨.requiredWith "b", "The {key} is required with b"⟩) []
    (.validationError ⟨"The a is required with b", some "required_with_validator", 400⟩)
    rfl (by simp) rfl

end DjangoValidator
